import Mathlib

/-!
Shallow embedding of the client-side conversation/session state machines of the
DigiLawyer / Niyam-Guru demo application, together with its login and signup
form validators.

The embedding follows the source components:
  * frontend/src/ChatInterface.js — the chat screen: a message list seeded with a
    welcome message, a text-send handler, a file-upload handler, and the delayed
    placeholder bot replies scheduled by each.  Timers are modelled as a list of
    pending reply events; firing a timer is an explicit step.  The wall-clock
    timestamp strings produced by Date().toLocaleTimeString() are passed in as
    parameters, and URL.createObjectURL(file) is modelled by passing the object
    URL string itself as the upload argument.
  * the moot-court component (function App in login.js) — a message list seeded
    with a judge opening message, an argument-submit handler gated by the
    isSimulating flag, and the nested opponent/judge reply timers.  Date.now()
    values are passed in as Nat parameters; Math.random() reply selection is
    modelled by a Fin 5 choice index.
  * the Login and SignUp components — pure validators from the submitted field
    values to either a navigation or an inline error message.
-/

namespace DigiLawyer

/-- The fixed set of message origins appearing in the source. -/
inductive Sender where
  | user
  | bot
  | judge
  | opponent
deriving DecidableEq, Repr

/-- A message record.  Chat-screen messages carry a timestamp display string and
optionally an attachment object URL (field image); moot-court messages use the
defaults for both. -/
structure Message where
  id : Nat
  text : String
  sender : Sender
  image : Option String := none
  timestamp : String := ""
deriving DecidableEq, Repr

/- ===== Chat screen (ChatInterface.js) ===== -/

/-- The initial welcome message text of the chat screen. -/
def welcomeText : String :=
  "Hello! I am your AI Legal Assistant. You can ask me about Indian Penal Codes, draft legal documents, or upload case files for analysis. How can I help you today?"

/-- The placeholder bot reply text sent after a text query. -/
def chatBotReplyText : String :=
  "I have received your query regarding this legal matter. Based on Indian law context, I would suggest looking into Section of the specific act. (This is a placeholder response)."

/-- The user-message text accompanying an uploaded file. -/
def uploadUserText : String := "Analyzed attached document:"

/-- The canned analysis reply text sent after a file upload. -/
def analysisText : String :=
  "I\x27ve scanned the document you uploaded. It appears to be a legal notice. Would you like me to summarize the key points?"

/-- A scheduled (not yet fired) reply timer of the chat screen.  The bot reply
scheduled by handleSend captures messages.length at submit time (its id is that
captured length + 2); the analysis reply scheduled by handleImageUpload computes
its id from the list length at firing time. -/
inductive ChatPending where
  | botReply (capturedLen : Nat)
  | analysisReply
deriving DecidableEq, Repr

/-- The view state of the chat screen: the messages list, the controlled text
input, the isTyping flag, and the outstanding reply timers. -/
structure ChatState where
  messages : List Message
  input : String
  isTyping : Bool
  pending : List ChatPending
deriving DecidableEq, Repr

/-- The chat screen state right after mount: one bot welcome message with id 1,
empty input, no typing indicator, no timers (useState initialisers). -/
def initChat (ts : String) : ChatState :=
  { messages := [{ id := 1, text := welcomeText, sender := .bot, timestamp := ts }]
    input := ""
    isTyping := false
    pending := [] }

/-- Executable model of the JavaScript String.prototype.trim() used by both
submit handlers: strip leading and trailing whitespace characters. -/
def jsTrim (str : String) : String :=
  String.mk (((str.data.dropWhile Char.isWhitespace).reverse.dropWhile Char.isWhitespace).reverse)

/-- Typing in the chat text input (the onChange handler setInput). -/
def setInput (s : ChatState) (t : String) : ChatState := { s with input := t }

/-- handleSend: ignore a blank input; otherwise append the user message with
id = messages.length + 1 and the literal input text, clear the input, set
isTyping, and schedule the bot reply capturing the pre-append list length. -/
def handleSend (s : ChatState) (ts : String) : ChatState :=
  if jsTrim s.input = "" then s
  else
    { s with
      messages := s.messages ++
        [{ id := s.messages.length + 1, text := s.input, sender := .user, timestamp := ts }]
      input := ""
      isTyping := true
      pending := s.pending ++ [.botReply s.messages.length] }

/-- handleImageUpload: if the picker delivered no file, do nothing; otherwise
append the user message carrying the object URL, set isTyping, and schedule the
analysis reply. -/
def handleImageUpload (s : ChatState) (file : Option String) (ts : String) : ChatState :=
  match file with
  | none => s
  | some url =>
    { s with
      messages := s.messages ++
        [{ id := s.messages.length + 1, text := uploadUserText, sender := .user,
           image := some url, timestamp := ts }]
      isTyping := true
      pending := s.pending ++ [.analysisReply] }

/-- The body of a chat reply timer callback: append the reply message (with the
id discipline of the corresponding setTimeout closure) and clear isTyping. -/
def fireChatPending (s : ChatState) (p : ChatPending) (ts : String) : ChatState :=
  match p with
  | .botReply capturedLen =>
    { s with
      messages := s.messages ++
        [{ id := capturedLen + 2, text := chatBotReplyText, sender := .bot, timestamp := ts }]
      isTyping := false }
  | .analysisReply =>
    { s with
      messages := s.messages ++
        [{ id := s.messages.length + 1, text := analysisText, sender := .bot, timestamp := ts }]
      isTyping := false }

/-- Fire the i-th outstanding chat timer (no-op when there is none). -/
def fireAt (s : ChatState) (i : Nat) (ts : String) : ChatState :=
  match s.pending[i]? with
  | none => s
  | some p => fireChatPending { s with pending := s.pending.eraseIdx i } p ts

/-- One UI or timer event on the chat screen.  The text input and send button
are never disabled in the source, so sending is possible in every state. -/
inductive ChatStep : ChatState → ChatState → Prop where
  | typeInput (s : ChatState) (t : String) : ChatStep s (setInput s t)
  | send (s : ChatState) (ts : String) : ChatStep s (handleSend s ts)
  | upload (s : ChatState) (file : Option String) (ts : String) :
      ChatStep s (handleImageUpload s file ts)
  | fire (s : ChatState) (i : Nat) (ts : String) : ChatStep s (fireAt s i ts)

/-- Chat screen states reachable from mount through any sequence of events. -/
inductive ChatReach : ChatState → Prop where
  | init (ts : String) : ChatReach (initChat ts)
  | step {s s' : ChatState} : ChatReach s → ChatStep s s' → ChatReach s'

/- ===== Moot-court screen (function App in the source, route /court) ===== -/

/-- The judge opening message text of the moot-court screen. -/
def openingText : String :=
  "Court is now in session. The Defendant may present their opening statement."

/-- The literal pool the opponent reply is randomly selected from. -/
def opponentResponses : List String :=
  ["Objection! The counsel is leading the witness.",
   "That is purely circumstantial evidence.",
   "My learned friend fails to consider the precedence set in 1994.",
   "I strongly disagree with that characterization of the facts.",
   "The prosecution has not met the burden of proof."]

/-- The literal pool the judge reply is randomly selected from. -/
def judgeResponses : List String :=
  ["Order in the court. I will allow the argument, proceed.",
   "Sustained. Please rephrase, Counselor.",
   "Overruled. The witness will answer the question.",
   "I have heard enough on this point. Move along.",
   "Noted. Let us see where this leads."]

/-- generateOpponentResponse: responses[Math.floor(Math.random() * 5)], with the
random draw modelled by the index r. -/
def generateOpponentResponse (r : Fin 5) : String := opponentResponses.getD r.val ""

/-- generateJudgeResponse: responses[Math.floor(Math.random() * 5)], with the
random draw modelled by the index r. -/
def generateJudgeResponse (r : Fin 5) : String := judgeResponses.getD r.val ""

/-- A scheduled (not yet fired) reply timer of the moot-court screen: the
1500 ms opponent timer set by handleUserSubmit, or the 2000 ms judge timer set
inside the opponent timer callback. -/
inductive MootPending where
  | opponentDue
  | judgeDue
deriving DecidableEq, Repr

/-- The view state of the moot-court screen: the messages list, the controlled
argument input, the isSimulating flag, and the outstanding reply timers (kept in
scheduling order; the source timers fire in that order). -/
structure MootState where
  messages : List Message
  inputText : String
  isSimulating : Bool
  pending : List MootPending
deriving DecidableEq, Repr

/-- The moot-court screen state right after mount: one judge message with id 1,
empty input, not simulating, no timers (useState initialisers). -/
def initMoot : MootState :=
  { messages := [{ id := 1, text := openingText, sender := .judge }]
    inputText := ""
    isSimulating := false
    pending := [] }

/-- Typing in the argument input (the onChange handler setInputText). -/
def setInputText (s : MootState) (t : String) : MootState := { s with inputText := t }

/-- handleUserSubmit: ignore a blank input; otherwise append the user message
with id = Date.now() and the literal input text, clear the input, set
isSimulating, and schedule the opponent timer. -/
def handleUserSubmit (s : MootState) (now : Nat) : MootState :=
  if jsTrim s.inputText = "" then s
  else
    { s with
      messages := s.messages ++ [{ id := now, text := s.inputText, sender := .user }]
      inputText := ""
      isSimulating := true
      pending := s.pending ++ [.opponentDue] }

/-- Fire the oldest outstanding moot-court timer (no-op when there is none).
The opponent callback appends the opponent message with id = Date.now() + 1 and
sets the judge timer; the judge callback appends the judge message with
id = Date.now() + 2 and clears isSimulating.  now is the Date.now() reading at
firing time and r the random draw for the reply pool. -/
def mootFire (s : MootState) (now : Nat) (r : Fin 5) : MootState :=
  match s.pending with
  | [] => s
  | .opponentDue :: rest =>
    { s with
      messages := s.messages ++
        [{ id := now + 1, text := generateOpponentResponse r, sender := .opponent }]
      pending := rest ++ [.judgeDue] }
  | .judgeDue :: rest =>
    { s with
      messages := s.messages ++
        [{ id := now + 2, text := generateJudgeResponse r, sender := .judge }]
      isSimulating := false
      pending := rest }

/-- One UI or timer event on the moot-court screen.  The argument input and the
Present button both carry disabled={isSimulating} in the source, so typing and
submitting are only possible while isSimulating is false. -/
inductive MootUIStep : MootState → MootState → Prop where
  | typeInput (s : MootState) (t : String) :
      s.isSimulating = false → MootUIStep s (setInputText s t)
  | submit (s : MootState) (now : Nat) :
      s.isSimulating = false → MootUIStep s (handleUserSubmit s now)
  | fire (s : MootState) (now : Nat) (r : Fin 5) : MootUIStep s (mootFire s now r)

/-- Moot-court screen states reachable from mount through the UI. -/
inductive MootReach : MootState → Prop where
  | init : MootReach initMoot
  | step {s s' : MootState} : MootReach s → MootUIStep s s' → MootReach s'

/- ===== Login form (component Login in login.js) ===== -/

/-- Outcome of a form submit: a client-side route navigation, or an inline
error message with no navigation. -/
inductive SubmitResult where
  | navigate (route : String)
  | showError (errMsg : String)
deriving DecidableEq, Repr

namespace Login

/-- handleSubmit of the Login component: an empty email or password field (the
falsy strings of the source check) sets the error; otherwise navigate to
/chat. -/
def handleSubmit (email password : String) : SubmitResult :=
  if email = "" ∨ password = "" then .showError "Please enter both email and password."
  else .navigate "/chat"

end Login

namespace SignUp

/-- handleSubmit of the SignUp component: any empty field sets the
fill-in-all-fields error; then unequal passwords set the do-not-match error;
otherwise navigate to /chat. -/
def handleSubmit (email password confirmPassword : String) : SubmitResult :=
  if email = "" ∨ password = "" ∨ confirmPassword = "" then
    .showError "Please fill in all fields."
  else if password ≠ confirmPassword then .showError "Passwords do not match!"
  else .navigate "/chat"

end SignUp

/- ===== Restricted interaction disciplines used by the id-uniqueness analysis ===== -/

/-- Chat events under sequential interaction: submitting or uploading only when
no reply timer is outstanding (the source UI itself never enforces this). -/
inductive ChatSeqStep : ChatState → ChatState → Prop where
  | typeInput (s : ChatState) (t : String) : ChatSeqStep s (setInput s t)
  | send (s : ChatState) (ts : String) : s.pending = [] → ChatSeqStep s (handleSend s ts)
  | upload (s : ChatState) (file : Option String) (ts : String) :
      s.pending = [] → ChatSeqStep s (handleImageUpload s file ts)
  | fire (s : ChatState) (i : Nat) (ts : String) : ChatSeqStep s (fireAt s i ts)

/-- Chat screen states reachable from mount under sequential interaction. -/
inductive ChatSeqReach : ChatState → Prop where
  | init (ts : String) : ChatSeqReach (initChat ts)
  | step {s s' : ChatState} : ChatSeqReach s → ChatSeqStep s s' → ChatSeqReach s'

/-- Moot-court screen states reachable from mount when every Date.now() reading
observed by an event exceeds every message id already in the list (the clock has
advanced past all ids produced so far). -/
inductive MootClockReach : MootState → Prop where
  | init : MootClockReach initMoot
  | typeInput {s : MootState} (t : String) :
      MootClockReach s → MootClockReach (setInputText s t)
  | submit {s : MootState} (now : Nat) :
      MootClockReach s → (∀ m ∈ s.messages, m.id < now) →
      MootClockReach (handleUserSubmit s now)
  | fire {s : MootState} (now : Nat) (r : Fin 5) :
      MootClockReach s → (∀ m ∈ s.messages, m.id < now) →
      MootClockReach (mootFire s now r)

/-- Invariant of sequential chat interaction: ids are pairwise distinct and
bounded by the list length, and at most one reply timer is outstanding, with the
captured length of a pending text-reply timer one below the current length. -/
def ChatIdInv (s : ChatState) : Prop :=
  (s.messages.map Message.id).Nodup ∧
  (∀ m ∈ s.messages, m.id ≤ s.messages.length) ∧
  (s.pending = [] ∨
    (∃ n, n + 1 = s.messages.length ∧ s.pending = [ChatPending.botReply n]) ∨
    s.pending = [ChatPending.analysisReply])

/- ===== Helper lemmas ===== -/

/-- Appending a message whose id is fresh preserves distinctness of ids. -/
theorem nodup_map_id_append {l : List Message} {m : Message}
    (h : (l.map Message.id).Nodup) (hm : m.id ∉ l.map Message.id) :
    ((l ++ [m]).map Message.id).Nodup := by
  rw [List.map_append]
  refine h.append (List.nodup_singleton m.id) ?_
  intro a ha hb
  simp only [List.map_cons, List.map_nil, List.mem_singleton] at hb
  subst hb
  exact hm ha

/-- An id strictly above the length bound of a list is fresh for it. -/
theorem id_above_bound_fresh {l : List Message} {k : Nat}
    (hb : ∀ m ∈ l, m.id ≤ l.length) (hk : l.length < k) :
    k ∉ l.map Message.id := by
  intro hmem
  obtain ⟨m, hm, hid⟩ := List.mem_map.mp hmem
  have := hb m hm
  omega

/-- An id strictly above every id of a list is fresh for it. -/
theorem id_above_all_fresh {l : List Message} {k j : Nat}
    (hb : ∀ m ∈ l, m.id < k) (hk : k ≤ j) :
    j ∉ l.map Message.id := by
  intro hmem
  obtain ⟨m, hm, hid⟩ := List.mem_map.mp hmem
  have := hb m hm
  omega

/-- Unfolding: handleSend on a blank input is the identity. -/
theorem handleSend_blank {s : ChatState} (ts : String) (h : jsTrim s.input = "") :
    handleSend s ts = s := by
  simp [handleSend, h]

/-- Unfolding: handleSend on a non-blank input. -/
theorem handleSend_nonblank {s : ChatState} (ts : String) (h : ¬ jsTrim s.input = "") :
    handleSend s ts =
      { s with
        messages := s.messages ++
          [{ id := s.messages.length + 1, text := s.input, sender := .user, timestamp := ts }]
        input := ""
        isTyping := true
        pending := s.pending ++ [ChatPending.botReply s.messages.length] } := by
  simp [handleSend, h]

/-- Unfolding: handleUserSubmit on a blank input is the identity. -/
theorem handleUserSubmit_blank {s : MootState} (now : Nat) (h : jsTrim s.inputText = "") :
    handleUserSubmit s now = s := by
  simp [handleUserSubmit, h]

/-- Unfolding: handleUserSubmit on a non-blank input. -/
theorem handleUserSubmit_nonblank {s : MootState} (now : Nat) (h : ¬ jsTrim s.inputText = "") :
    handleUserSubmit s now =
      { s with
        messages := s.messages ++ [{ id := now, text := s.inputText, sender := .user }]
        inputText := ""
        isSimulating := true
        pending := s.pending ++ [MootPending.opponentDue] } := by
  simp [handleUserSubmit, h]

/-- Unfolding: firing a moot-court timer when none is outstanding. -/
theorem mootFire_nil (msgs : List Message) (txt : String) (sim : Bool)
    (now : Nat) (r : Fin 5) :
    mootFire ⟨msgs, txt, sim, []⟩ now r = ⟨msgs, txt, sim, []⟩ := rfl

/-- Unfolding: firing an outstanding opponent timer appends the opponent reply
and schedules the judge timer. -/
theorem mootFire_opponent (msgs : List Message) (txt : String) (sim : Bool)
    (rest : List MootPending) (now : Nat) (r : Fin 5) :
    mootFire ⟨msgs, txt, sim, MootPending.opponentDue :: rest⟩ now r =
      ⟨msgs ++ [{ id := now + 1, text := generateOpponentResponse r, sender := .opponent }],
       txt, sim, rest ++ [MootPending.judgeDue]⟩ := rfl

/-- Unfolding: firing an outstanding judge timer appends the judge reply and
clears isSimulating. -/
theorem mootFire_judge (msgs : List Message) (txt : String) (sim : Bool)
    (rest : List MootPending) (now : Nat) (r : Fin 5) :
    mootFire ⟨msgs, txt, sim, MootPending.judgeDue :: rest⟩ now r =
      ⟨msgs ++ [{ id := now + 2, text := generateJudgeResponse r, sender := .judge }],
       txt, false, rest⟩ := rfl

/- ===== Claims ===== -/

/-- C10: when the file-picker change event delivers no file, handleImageUpload
returns the state unchanged: no message appended, isTyping untouched, no reply
timer scheduled. -/
theorem claim10_upload_cancel_noop :
    ∀ (s : ChatState) (ts : String), handleImageUpload s none ts = s :=
  fun _ _ => rfl

/-- C7: uploading a file appends exactly one user message carrying the object
URL as its attachment reference and schedules the analysis timer, and firing
that timer appends exactly one canned bot analysis reply.  The handler performs
no network request: its entire effect is this local state update. -/
theorem claim7_upload_appends :
    ∀ (s : ChatState) (url ts : String),
      handleImageUpload s (some url) ts =
        { s with
          messages := s.messages ++
            [{ id := s.messages.length + 1, text := uploadUserText, sender := .user,
               image := some url, timestamp := ts }]
          isTyping := true
          pending := s.pending ++ [ChatPending.analysisReply] } ∧
      ∀ (s2 : ChatState) (ts2 : String),
        fireChatPending s2 ChatPending.analysisReply ts2 =
          { s2 with
            messages := s2.messages ++
              [{ id := s2.messages.length + 1, text := analysisText, sender := .bot,
                 timestamp := ts2 }]
            isTyping := false } :=
  fun _ _ _ => ⟨rfl, fun _ _ => rfl⟩

/-- C6: submitting a blank (empty or whitespace-only) input is a complete no-op
on both screens: the state is returned unchanged, so nothing is appended and no
reply timer is started. -/
theorem claim6_blank_submit_noop :
    (∀ (s : ChatState) (ts : String), jsTrim s.input = "" → handleSend s ts = s) ∧
    (∀ (s : MootState) (now : Nat), jsTrim s.inputText = "" → handleUserSubmit s now = s) := by
  constructor
  · intro s ts h
    simp [handleSend, h]
  · intro s now h
    simp [handleUserSubmit, h]

/-- Witness for C6 at whitespace-only inputs on both screens. -/
theorem claim6_witness :
    handleSend (setInput (initChat "09:00:00") "   ") "09:00:05" =
      setInput (initChat "09:00:00") "   " ∧
    handleUserSubmit (setInputText initMoot "  ") 42 = setInputText initMoot "  " :=
  ⟨claim6_blank_submit_noop.1 _ "09:00:05" (by decide),
   claim6_blank_submit_noop.2 _ 42 (by decide)⟩

/-- C4: the login submit navigates to /chat whenever both fields are non-empty,
and with either field empty it sets the inline error and does not navigate. -/
theorem claim4_login_submit :
    ∀ email password : String,
      (email ≠ "" → password ≠ "" →
        Login.handleSubmit email password = SubmitResult.navigate "/chat") ∧
      ((email = "" ∨ password = "") →
        Login.handleSubmit email password =
          SubmitResult.showError "Please enter both email and password.") := by
  intro email password
  constructor
  · intro h1 h2
    simp [Login.handleSubmit, h1, h2]
  · intro h
    simp [Login.handleSubmit, h]

/-- Witness for C4: arbitrary non-empty credentials navigate, an empty email
yields the error result. -/
theorem claim4_witness :
    Login.handleSubmit "user@example.com" "hunter2" = SubmitResult.navigate "/chat" ∧
    Login.handleSubmit "" "hunter2" =
      SubmitResult.showError "Please enter both email and password." :=
  ⟨(claim4_login_submit "user@example.com" "hunter2").1 (by decide) (by decide),
   (claim4_login_submit "" "hunter2").2 (Or.inl rfl)⟩

/-- C5 is false as stated: with an empty email and non-empty, unequal passwords
the signup submit shows the fill-in-all-fields error, not the do-not-match
error (the emptiness check runs first). -/
theorem claim5_counterexample :
    SignUp.handleSubmit "" "alpha" "beta" =
      SubmitResult.showError "Please fill in all fields." ∧
    SignUp.handleSubmit "" "alpha" "beta" ≠
      SubmitResult.showError "Passwords do not match!" := by
  constructor
  · decide
  · decide

/-- C5 (amended): with any field empty the signup submit shows the
fill-in-all-fields error and does not navigate; with all three fields non-empty
and unequal passwords it shows the do-not-match error and does not navigate;
with all three non-empty and matching passwords it navigates to /chat
regardless of the credential values. -/
theorem claim5_signup_submit :
    ∀ email password confirmPassword : String,
      ((email = "" ∨ password = "" ∨ confirmPassword = "") →
        SignUp.handleSubmit email password confirmPassword =
          SubmitResult.showError "Please fill in all fields.") ∧
      (email ≠ "" → password ≠ "" → confirmPassword ≠ "" → password ≠ confirmPassword →
        SignUp.handleSubmit email password confirmPassword =
          SubmitResult.showError "Passwords do not match!") ∧
      (email ≠ "" → password ≠ "" → confirmPassword ≠ "" → password = confirmPassword →
        SignUp.handleSubmit email password confirmPassword =
          SubmitResult.navigate "/chat") := by
  intro email password confirmPassword
  refine ⟨?_, ?_, ?_⟩
  · intro h
    simp [SignUp.handleSubmit, h]
  · intro h1 h2 h3 h4
    simp [SignUp.handleSubmit, h1, h2, h3, h4]
  · intro h1 h2 h3 h4
    simp [SignUp.handleSubmit, h1, h2, h3, h4]

/-- Witness for C5 (amended) at concrete inputs covering all three branches. -/
theorem claim5_witness :
    SignUp.handleSubmit "a@b.c" "" "" = SubmitResult.showError "Please fill in all fields." ∧
    SignUp.handleSubmit "a@b.c" "alpha" "beta" =
      SubmitResult.showError "Passwords do not match!" ∧
    SignUp.handleSubmit "a@b.c" "alpha" "alpha" = SubmitResult.navigate "/chat" :=
  ⟨(claim5_signup_submit "a@b.c" "" "").1 (Or.inr (Or.inl rfl)),
   (claim5_signup_submit "a@b.c" "alpha" "beta").2.1 (by decide) (by decide) (by decide) (by decide),
   (claim5_signup_submit "a@b.c" "alpha" "alpha").2.2 (by decide) (by decide) (by decide) rfl⟩

/-- C2 is false as stated: neither screen mounts with an empty message list;
both initial states already hold one hard-coded greeting message. -/
theorem claim2_counterexample :
    (initChat "09:00:00").messages ≠ [] ∧ initMoot.messages ≠ [] ∧
    (initChat "09:00:00").messages.length = 1 ∧ initMoot.messages.length = 1 := by
  refine ⟨?_, ?_, rfl, rfl⟩ <;> simp [initChat, initMoot]

/-- C2 (amended): on mount, before any user action, each session holds exactly
one hard-coded greeting message — the bot welcome message (id 1) on the chat
screen and the judge opening message (id 1) on the moot-court screen — with no
pending timer and the pending flag cleared. -/
theorem claim2_mount_state :
    ∀ ts : String,
      (initChat ts).messages =
        [{ id := 1, text := welcomeText, sender := .bot, timestamp := ts }] ∧
      initMoot.messages = [{ id := 1, text := openingText, sender := .judge }] ∧
      (initChat ts).pending = [] ∧ initMoot.pending = [] ∧
      (initChat ts).isTyping = false ∧ initMoot.isSimulating = false :=
  fun _ => ⟨rfl, rfl, rfl, rfl, rfl, rfl⟩

/-- C1 is false as stated: a single moot-court submission is followed, through
the chained timers, by two reply messages (one opponent, one judge), not exactly
one, in a state reachable through the UI. -/
theorem claim1_counterexample :
    MootReach
      (mootFire (mootFire (handleUserSubmit (setInputText initMoot "May it please the court") 100)
        200 0) 300 0) ∧
    ((mootFire (mootFire (handleUserSubmit (setInputText initMoot "May it please the court") 100)
        200 0) 300 0).messages.map Message.sender) =
      [Sender.judge, Sender.user, Sender.opponent, Sender.judge] := by
  constructor
  · exact MootReach.step
      (MootReach.step
        (MootReach.step
          (MootReach.step MootReach.init (MootUIStep.typeInput _ "May it please the court" rfl))
          (MootUIStep.submit _ 100 rfl))
        (MootUIStep.fire _ 200 0))
      (MootUIStep.fire _ 300 0)
  · decide

/-- C1 (amended): submitting a non-blank input appends exactly one user message
with the literal input text on either screen; after the delay the chat screen
appends exactly one bot reply, while the moot-court screen appends two reply
messages — one opponent reply, then one judge reply — before clearing
isSimulating. -/
theorem claim1_submit_appends :
    (∀ (s : ChatState) (ts : String), jsTrim s.input ≠ "" →
      (handleSend s ts).messages = s.messages ++
          [{ id := s.messages.length + 1, text := s.input, sender := .user, timestamp := ts }] ∧
      (handleSend s ts).pending = s.pending ++ [ChatPending.botReply s.messages.length] ∧
      ∀ (s2 : ChatState) (n : Nat) (ts2 : String),
        (fireChatPending s2 (ChatPending.botReply n) ts2).messages =
          s2.messages ++
            [{ id := n + 2, text := chatBotReplyText, sender := .bot, timestamp := ts2 }]) ∧
    (∀ (s : MootState) (now : Nat), jsTrim s.inputText ≠ "" →
      (handleUserSubmit s now).messages = s.messages ++
          [{ id := now, text := s.inputText, sender := .user }] ∧
      (handleUserSubmit s now).pending = s.pending ++ [MootPending.opponentDue] ∧
      ∀ (msgs : List Message) (txt : String) (n1 n2 : Nat) (r1 r2 : Fin 5),
        (mootFire (mootFire ⟨msgs, txt, true, [MootPending.opponentDue]⟩ n1 r1) n2 r2).messages =
          (msgs ++
            [{ id := n1 + 1, text := generateOpponentResponse r1, sender := .opponent }]) ++
            [{ id := n2 + 2, text := generateJudgeResponse r2, sender := .judge }] ∧
        (mootFire (mootFire ⟨msgs, txt, true, [MootPending.opponentDue]⟩ n1 r1) n2 r2).isSimulating
          = false) := by
  constructor
  · intro s ts h
    refine ⟨?_, ?_, fun _ _ _ => rfl⟩ <;> rw [handleSend_nonblank ts h]
  · intro s now h
    refine ⟨?_, ?_, fun _ _ _ _ _ _ => ⟨rfl, rfl⟩⟩ <;> rw [handleUserSubmit_nonblank now h]

/-- Witness for C1 (amended): a concrete send on each screen. -/
theorem claim1_witness :
    (handleSend (setInput (initChat "t0") "What is IPC 420?") "t1").messages =
      (setInput (initChat "t0") "What is IPC 420?").messages ++
        [{ id := (setInput (initChat "t0") "What is IPC 420?").messages.length + 1,
           text := "What is IPC 420?", sender := .user, timestamp := "t1" }] ∧
    (handleUserSubmit (setInputText initMoot "The defence rests.") 500).messages =
      (setInputText initMoot "The defence rests.").messages ++
        [{ id := 500, text := "The defence rests.", sender := .user }] :=
  ⟨(claim1_submit_appends.1 (setInput (initChat "t0") "What is IPC 420?") "t1" (by decide)).1,
   (claim1_submit_appends.2 (setInputText initMoot "The defence rests.") 500 (by decide)).1⟩

/-- C3 is false as stated: submitting again on the chat screen while the first
reply timer is still pending reaches a state in which two messages share id 3
(the second user message, id = length 2 + 1, and the first bot reply, whose
timer captured length 1 and so also uses id 3). -/
theorem claim3_counterexample :
    ChatReach
      (fireAt (handleSend (setInput (handleSend (setInput (initChat "t0") "First argument") "t1")
        "Second argument") "t2") 0 "t3") ∧
    ¬ ((fireAt (handleSend (setInput (handleSend (setInput (initChat "t0") "First argument") "t1")
        "Second argument") "t2") 0 "t3").messages.map Message.id).Nodup := by
  constructor
  · exact ChatReach.step
      (ChatReach.step
        (ChatReach.step
          (ChatReach.step
            (ChatReach.step (ChatReach.init "t0") (ChatStep.typeInput _ "First argument"))
            (ChatStep.send _ "t1"))
          (ChatStep.typeInput _ "Second argument"))
        (ChatStep.send _ "t2"))
      (ChatStep.fire _ 0 "t3")
  · decide

/-- The chat mount state satisfies the sequential-interaction id invariant. -/
theorem chatIdInv_init (ts : String) : ChatIdInv (initChat ts) := by
  refine ⟨by simp [initChat], ?_, Or.inl rfl⟩
  intro m hm
  simp only [initChat, List.mem_singleton] at hm
  subst hm
  simp [initChat]

/-- Every sequential-interaction chat event preserves the id invariant. -/
theorem chatIdInv_step {s s' : ChatState} (hst : ChatSeqStep s s') (hinv : ChatIdInv s) :
    ChatIdInv s' := by
  obtain ⟨hnd, hbound, hpend⟩ := hinv
  cases hst with
  | typeInput t => exact ⟨hnd, hbound, hpend⟩
  | send ts hp =>
    by_cases hc : jsTrim s.input = ""
    · rw [handleSend_blank ts hc]
      exact ⟨hnd, hbound, hpend⟩
    · rw [handleSend_nonblank ts hc]
      refine ⟨nodup_map_id_append hnd (id_above_bound_fresh hbound (Nat.lt_succ_self _)),
        ?_, Or.inr (Or.inl ⟨s.messages.length, by simp, by rw [hp]; rfl⟩)⟩
      intro m hm
      simp only [List.length_append, List.length_singleton]
      rcases List.mem_append.mp hm with h | h
      · have := hbound m h
        omega
      · simp only [List.mem_singleton] at h
        subst h
        simp
  | upload file ts hp =>
    cases file with
    | none => exact ⟨hnd, hbound, hpend⟩
    | some url =>
      refine ⟨nodup_map_id_append hnd (id_above_bound_fresh hbound (Nat.lt_succ_self _)),
        ?_, Or.inr (Or.inr (by show s.pending ++ [ChatPending.analysisReply] = _; rw [hp]; rfl))⟩
      intro m hm
      simp only [handleImageUpload, List.length_append, List.length_singleton]
      simp only [handleImageUpload] at hm
      rcases List.mem_append.mp hm with h | h
      · have := hbound m h
        omega
      · simp only [List.mem_singleton] at h
        subst h
        simp
  | fire i ts =>
    rcases hpend with hp | ⟨n, hn, hp⟩ | hp
    · have : s.pending[i]? = none := by
        rw [hp]
        exact List.getElem?_nil
      simp only [fireAt, this]
      exact ⟨hnd, hbound, Or.inl hp⟩
    · cases i with
      | zero =>
        have h0 : s.pending[0]? = some (ChatPending.botReply n) := by
          rw [hp]
          rfl
        have he : s.pending.eraseIdx 0 = [] := by
          rw [hp]
          rfl
        simp only [fireAt, h0, fireChatPending, he]
        refine ⟨nodup_map_id_append hnd ?_, ?_, Or.inl rfl⟩
        · exact id_above_bound_fresh hbound (by show s.messages.length < n + 2; omega)
        · intro m hm
          simp only [List.length_append, List.length_singleton]
          rcases List.mem_append.mp hm with h | h
          · have := hbound m h
            omega
          · simp only [List.mem_singleton] at h
            subst h
            show n + 2 ≤ s.messages.length + 1
            omega
      | succ j =>
        have : s.pending[j + 1]? = none := by
          rw [hp]
          rfl
        simp only [fireAt, this]
        exact ⟨hnd, hbound, Or.inr (Or.inl ⟨n, hn, hp⟩)⟩
    · cases i with
      | zero =>
        have h0 : s.pending[0]? = some ChatPending.analysisReply := by
          rw [hp]
          rfl
        have he : s.pending.eraseIdx 0 = [] := by
          rw [hp]
          rfl
        simp only [fireAt, h0, fireChatPending, he]
        refine ⟨nodup_map_id_append hnd (id_above_bound_fresh hbound (Nat.lt_succ_self _)),
          ?_, Or.inl rfl⟩
        intro m hm
        simp only [List.length_append, List.length_singleton]
        rcases List.mem_append.mp hm with h | h
        · have := hbound m h
          omega
        · simp only [List.mem_singleton] at h
          subst h
          simp
      | succ j =>
        have : s.pending[j + 1]? = none := by
          rw [hp]
          rfl
        simp only [fireAt, this]
        exact ⟨hnd, hbound, Or.inr (Or.inr hp)⟩

/-- Every sequentially reachable chat state satisfies the id invariant. -/
theorem chatSeqReach_inv {s : ChatState} (h : ChatSeqReach s) : ChatIdInv s := by
  induction h with
  | init ts => exact chatIdInv_init ts
  | step hr hst ih => exact chatIdInv_step hst ih

/-- Every clock-monotone reachable moot-court state has pairwise distinct
message ids. -/
theorem mootClockReach_nodup {s : MootState} (h : MootClockReach s) :
    (s.messages.map Message.id).Nodup := by
  induction h with
  | init => simp [initMoot]
  | typeInput t hr ih => exact ih
  | submit now hr hlt ih =>
    rename_i s
    by_cases hc : jsTrim s.inputText = ""
    · rw [handleUserSubmit_blank now hc]
      exact ih
    · rw [handleUserSubmit_nonblank now hc]
      exact nodup_map_id_append ih (id_above_all_fresh hlt (Nat.le_refl now))
  | fire now r hr hlt ih =>
    rename_i s
    obtain ⟨msgs, txt, sim, pend⟩ := s
    cases pend with
    | nil => exact ih
    | cons p rest =>
      cases p with
      | opponentDue =>
        rw [mootFire_opponent]
        exact nodup_map_id_append ih (id_above_all_fresh hlt (Nat.le_succ now))
      | judgeDue =>
        rw [mootFire_judge]
        exact nodup_map_id_append ih (id_above_all_fresh hlt (Nat.le_add_right now 2))

/-- C3 (amended): within one session message ids are pairwise distinct under
sequential interaction: on the chat screen in every state reachable without
submitting or uploading while a reply timer is pending (submitting during a
pending reply can duplicate an id, as the counterexample shows), and on the
moot-court screen in every state reachable while each event's Date.now()
reading exceeds every id already in the list. -/
theorem claim3_ids_unique :
    (∀ s : ChatState, ChatSeqReach s → (s.messages.map Message.id).Nodup) ∧
    (∀ s : MootState, MootClockReach s → (s.messages.map Message.id).Nodup) :=
  ⟨fun _ h => (chatSeqReach_inv h).1, fun _ h => mootClockReach_nodup h⟩

/-- Witness for C3 (amended): a full sequential round on each screen. -/
theorem claim3_witness :
    (((fireAt (handleSend (setInput (initChat "t0") "Opening argument") "t1") 0 "t2").messages.map
        Message.id).Nodup) ∧
    (((mootFire (handleUserSubmit (setInputText initMoot "Opening argument") 50) 60
        0).messages.map Message.id).Nodup) :=
  ⟨claim3_ids_unique.1 _
    (ChatSeqReach.step
      (ChatSeqReach.step
        (ChatSeqReach.step (ChatSeqReach.init "t0") (ChatSeqStep.typeInput _ "Opening argument"))
        (ChatSeqStep.send _ "t1" rfl))
      (ChatSeqStep.fire _ 0 "t2")),
   claim3_ids_unique.2 _
    (MootClockReach.fire 60 0
      (MootClockReach.submit 50 (MootClockReach.typeInput "Opening argument" MootClockReach.init)
        (by decide))
      (by decide))⟩

/-- C8: every operation on either screen leaves the message list unchanged or
appends exactly one message at its end, so existing messages and their relative
order are never changed and no message is removed, edited, reordered, or
deduplicated. -/
theorem claim8_append_only :
    (∀ (s : ChatState) (t : String), (setInput s t).messages = s.messages) ∧
    (∀ (s : ChatState) (ts : String),
      (handleSend s ts).messages = s.messages ∨
        ∃ m, (handleSend s ts).messages = s.messages ++ [m]) ∧
    (∀ (s : ChatState) (file : Option String) (ts : String),
      (handleImageUpload s file ts).messages = s.messages ∨
        ∃ m, (handleImageUpload s file ts).messages = s.messages ++ [m]) ∧
    (∀ (s : ChatState) (i : Nat) (ts : String),
      (fireAt s i ts).messages = s.messages ∨
        ∃ m, (fireAt s i ts).messages = s.messages ++ [m]) ∧
    (∀ (s : MootState) (t : String), (setInputText s t).messages = s.messages) ∧
    (∀ (s : MootState) (now : Nat),
      (handleUserSubmit s now).messages = s.messages ∨
        ∃ m, (handleUserSubmit s now).messages = s.messages ++ [m]) ∧
    (∀ (s : MootState) (now : Nat) (r : Fin 5),
      (mootFire s now r).messages = s.messages ∨
        ∃ m, (mootFire s now r).messages = s.messages ++ [m]) := by
  refine ⟨fun _ _ => rfl, ?_, ?_, ?_, fun _ _ => rfl, ?_, ?_⟩
  · intro s ts
    by_cases hc : jsTrim s.input = ""
    · exact Or.inl (by rw [handleSend_blank ts hc])
    · exact Or.inr ⟨_, by rw [handleSend_nonblank ts hc]⟩
  · intro s file ts
    cases file with
    | none => exact Or.inl rfl
    | some url => exact Or.inr ⟨_, rfl⟩
  · intro s i ts
    cases h0 : s.pending[i]? with
    | none => exact Or.inl (by simp [fireAt, h0])
    | some p =>
      cases p with
      | botReply n =>
        exact Or.inr ⟨{ id := n + 2, text := chatBotReplyText, sender := .bot, timestamp := ts },
          by simp [fireAt, h0, fireChatPending]⟩
      | analysisReply =>
        exact Or.inr
          ⟨{ id := s.messages.length + 1, text := analysisText, sender := .bot, timestamp := ts },
            by simp [fireAt, h0, fireChatPending]⟩
  · intro s now
    by_cases hc : jsTrim s.inputText = ""
    · exact Or.inl (by rw [handleUserSubmit_blank now hc])
    · exact Or.inr ⟨_, by rw [handleUserSubmit_nonblank now hc]⟩
  · intro s now r
    obtain ⟨msgs, txt, sim, pend⟩ := s
    cases pend with
    | nil => exact Or.inl rfl
    | cons p rest =>
      cases p with
      | opponentDue => exact Or.inr ⟨_, rfl⟩
      | judgeDue => exact Or.inr ⟨_, rfl⟩

/-- Every UI-reachable moot-court state either is idle with no outstanding
timer, or is simulating with exactly one outstanding timer. -/
theorem mootReach_pending_inv {s : MootState} (h : MootReach s) :
    (s.isSimulating = false ∧ s.pending = []) ∨
      (s.isSimulating = true ∧ s.pending.length = 1) := by
  induction h with
  | init => exact Or.inl ⟨rfl, rfl⟩
  | step hr hst ih =>
    cases hst with
    | typeInput t hg => exact ih
    | submit now hg =>
      rename_i s
      rcases ih with ⟨hf, hp⟩ | ⟨ht, _⟩
      · by_cases hc : jsTrim s.inputText = ""
        · rw [handleUserSubmit_blank now hc]
          exact Or.inl ⟨hf, hp⟩
        · rw [handleUserSubmit_nonblank now hc]
          refine Or.inr ⟨rfl, ?_⟩
          rw [hp]
          rfl
      · rw [hg] at ht
        cases ht
    | fire now r =>
      rename_i s
      rcases ih with ⟨hf, hp⟩ | ⟨ht, hl⟩
      · obtain ⟨msgs, txt, sim, pend⟩ := s
        simp only at hp
        subst hp
        rw [mootFire_nil]
        exact Or.inl ⟨hf, rfl⟩
      · obtain ⟨msgs, txt, sim, pend⟩ := s
        simp only at ht hl
        subst ht
        match pend, hl with
        | [p], _ =>
          cases p with
          | opponentDue =>
            rw [mootFire_opponent]
            exact Or.inr ⟨rfl, rfl⟩
          | judgeDue =>
            rw [mootFire_judge]
            exact Or.inl ⟨rfl, rfl⟩

/-- C9: on the moot-court screen at most one reply sequence is outstanding at
any time: in every UI-reachable state the pending-timer count is at most one
and isSimulating is cleared exactly when no timer is outstanding; moreover,
while isSimulating is true no UI event can change the argument input or append
a user message, so overlapping reply timers cannot arise through the UI. -/
theorem claim9_single_pending :
    (∀ s : MootState, MootReach s →
      s.pending.length ≤ 1 ∧ (s.isSimulating = false ↔ s.pending = [])) ∧
    (∀ s s' : MootState, s.isSimulating = true → MootUIStep s s' →
      s'.inputText = s.inputText ∧
      (s'.messages = s.messages ∨
        ∃ m, m.sender ≠ Sender.user ∧ s'.messages = s.messages ++ [m])) := by
  constructor
  · intro s hs
    rcases mootReach_pending_inv hs with ⟨hf, hp⟩ | ⟨ht, hl⟩
    · rw [hf, hp]
      exact ⟨by simp, by simp⟩
    · rw [ht]
      refine ⟨by omega, ?_, ?_⟩
      · intro h
        cases h
      · intro h
        rw [h] at hl
        cases hl
  · intro s s' ht hst
    cases hst with
    | typeInput t hg =>
      rw [hg] at ht
      cases ht
    | submit now hg =>
      rw [hg] at ht
      cases ht
    | fire now r =>
      obtain ⟨msgs, txt, sim, pend⟩ := s
      cases pend with
      | nil => exact ⟨rfl, Or.inl rfl⟩
      | cons p rest =>
        cases p with
        | opponentDue =>
          rw [mootFire_opponent]
          exact ⟨rfl, Or.inr ⟨_, by simp, rfl⟩⟩
        | judgeDue =>
          rw [mootFire_judge]
          exact ⟨rfl, Or.inr ⟨_, by simp, rfl⟩⟩

/-- Witness for C9: the state right after a concrete submission is simulating
with exactly one outstanding timer. -/
theorem claim9_witness :
    (handleUserSubmit (setInputText initMoot "Your honor, I object.") 700).pending.length ≤ 1 ∧
    ((handleUserSubmit (setInputText initMoot "Your honor, I object.") 700).isSimulating = false ↔
      (handleUserSubmit (setInputText initMoot "Your honor, I object.") 700).pending = []) :=
  claim9_single_pending.1 _
    (MootReach.step
      (MootReach.step MootReach.init (MootUIStep.typeInput _ "Your honor, I object." rfl))
      (MootUIStep.submit _ 700 rfl))

end DigiLawyer
